import Mathlib

/-!
Shallow embedding of the interview-session scoring subsystem of the
Hiring_Guru_AI_Backend repository, centred on:

* `app/interview/scores.py` — class `SessionAnalyzer`
* `app/main3.py`            — endpoint `POST /api/session/{session_id}/analyze`
* `app/mongo.py`            — `add_user_response_to_transcript`

Modelling conventions:

* A conversation message is a Python dict; we model exactly the keys the
  scoring code reads (`type`, `content`, `transcript`, `timestamp`,
  `question_number`) as `Option`-valued fields, `none` meaning the key is
  absent.  Keys the scoring code never reads (`speaker`, `audio_file`,
  `metadata`) are omitted.
* The external LLM ("oracle") call of each `_analyze_*` method is modelled
  by an `Option Int` per dimension: `some v` means the chat call succeeded
  and `int(reply.strip())` evaluated to `v`; `none` means any failure
  (network error, exception, or non-integer reply), i.e. the path that
  lands in the method's `except:` clause.
* The feedback LLM call of `_generate_comprehensive_feedback` is modelled
  by `FeedbackReply`: `fail` (the call raised), `jsonOk fb` (the reply was
  valid JSON, abstracted as a `Feedback` record), `raw t` (the reply was a
  string `t` that is not valid JSON, sent to `_parse_feedback_text`).
* Python floats are modelled as exact rationals (`ℚ`); the weight literals
  0.15 / 0.30 / 0.25 / 0.15 / 0.15 are exact decimals, and Python's
  builtin `round` (round-half-to-even) is modelled by `pyRound`.
* `datetime.now().isoformat()` timestamps are informational only and are
  dropped from the report record.
-/

/-- One message of a session's `conversation` list (a Python dict);
`none` = key absent. -/
structure Message where
  type : Option String
  content : Option String
  transcript : Option String
  timestamp : Option String
  question_number : Option Nat
deriving Repr, DecidableEq

/-- The five score dimensions produced by `SessionAnalyzer`. -/
inductive Dimension where
  | confidence
  | technical
  | communication
  | fluency
  | base_knowledge
deriving Repr, DecidableEq

/-- The `scores` dict of the analysis result. -/
structure Scores where
  confidence : Int
  technical : Int
  communication : Int
  fluency : Int
  base_knowledge : Int
deriving Repr, DecidableEq

/-- Dictionary lookup on the `scores` dict. -/
def Scores.get (s : Scores) : Dimension → Int
  | .confidence => s.confidence
  | .technical => s.technical
  | .communication => s.communication
  | .fluency => s.fluency
  | .base_knowledge => s.base_knowledge

/-- The feedback dict: `strengths`, `improvements`, `detailedFeedback`. -/
structure Feedback where
  strengths : List String
  improvements : List String
  detailedFeedback : String
deriving Repr, DecidableEq

/-- The analysis result dict returned by `analyze_session_scores`
(`analysis_timestamp` omitted, see module docstring). -/
structure Report where
  overallScore : Int
  scores : Scores
  feedback : Feedback
deriving Repr, DecidableEq

/-- `session_data` as read by the analyzer: the `conversation` list and the
`user_role` key (other keys are not read by the scoring code). -/
structure SessionData where
  conversation : List Message
  user_role : Option String
deriving Repr, DecidableEq

/-- One per-dimension outcome of the external LLM call: `some v` = call
succeeded and the reply parsed to integer `v`; `none` = any failure. -/
structure Oracle where
  confidence : Option Int
  technical : Option Int
  communication : Option Int
  fluency : Option Int
  base_knowledge : Option Int
deriving Repr, DecidableEq

/-- Projection of the oracle environment at one dimension. -/
def Oracle.get (o : Oracle) : Dimension → Option Int
  | .confidence => o.confidence
  | .technical => o.technical
  | .communication => o.communication
  | .fluency => o.fluency
  | .base_knowledge => o.base_knowledge

/-- Outcome of the feedback LLM call in `_generate_comprehensive_feedback`. -/
inductive FeedbackReply where
  | fail
  | jsonOk (fb : Feedback)
  | raw (t : String)
deriving Repr, DecidableEq

/-- Python truthiness of `msg.get(key)` for a string-valued key:
true iff present and non-empty. -/
def pyTruthyStr : Option String → Bool
  | none => false
  | some t => t != ""

/-- Python `a or b` where `a = msg.get(key)` is an optional string and `b`
a string: yields `a` when truthy, else `b`. -/
def py_or_str (a : Option String) (b : String) : String :=
  match a with
  | some s => if s ≠ "" then s else b
  | none => b

/-- `SessionAnalyzer._extract_user_responses` (scores.py 60–66): keep
`message["transcript"]` for each message whose `type` equals
`"user_response"` and whose `transcript` key is present and non-empty. -/
def _extract_user_responses (conversation : List Message) : List String :=
  conversation.filterMap fun message =>
    if message.type = some "user_response" ∧ pyTruthyStr message.transcript = true then
      message.transcript
    else
      none

/-- `SessionAnalyzer._analyze_confidence` (scores.py 68–96): the prompt is
built from `responses`; the reply is modelled by `oc`.  On success the
parsed integer is clamped with `max(1, min(100, score))`; any failure
returns the fixed default 75. -/
def _analyze_confidence (responses : List String) (oc : Option Int) : Int :=
  match oc with
  | some score => max 1 (min 100 score)
  | none => 75

/-- `SessionAnalyzer._analyze_technical_knowledge` (scores.py 98–128):
default 70 on failure, clamp on success. -/
def _analyze_technical_knowledge (responses : List String) (role : String)
    (oc : Option Int) : Int :=
  match oc with
  | some score => max 1 (min 100 score)
  | none => 70

/-- `SessionAnalyzer._analyze_communication` (scores.py 130–159):
default 75 on failure, clamp on success. -/
def _analyze_communication (responses : List String) (oc : Option Int) : Int :=
  match oc with
  | some score => max 1 (min 100 score)
  | none => 75

/-- `SessionAnalyzer._analyze_fluency` (scores.py 161–190):
default 80 on failure, clamp on success. -/
def _analyze_fluency (responses : List String) (oc : Option Int) : Int :=
  match oc with
  | some score => max 1 (min 100 score)
  | none => 80

/-- `SessionAnalyzer._analyze_base_knowledge` (scores.py 192–222):
default 70 on failure, clamp on success. -/
def _analyze_base_knowledge (responses : List String) (role : String)
    (oc : Option Int) : Int :=
  match oc with
  | some score => max 1 (min 100 score)
  | none => 70

/-- The `weights` dict of `_calculate_overall_score` (scores.py 226–232),
as exact decimals. -/
structure Weights where
  confidence : ℚ
  technical : ℚ
  communication : ℚ
  fluency : ℚ
  base_knowledge : ℚ

/-- The literal weight values of scores.py 226–232. -/
def the_weights : Weights :=
  { confidence := 0.15
    technical := 0.30
    communication := 0.25
    fluency := 0.15
    base_knowledge := 0.15 }

/-- Python's builtin `round` on an exact rational: round half to even. -/
def pyRound (q : ℚ) : ℤ :=
  if q - ⌊q⌋ < 1/2 then ⌊q⌋
  else if 1/2 < q - ⌊q⌋ then ⌊q⌋ + 1
  else if 2 ∣ ⌊q⌋ then ⌊q⌋ else ⌊q⌋ + 1

/-- `SessionAnalyzer._calculate_overall_score` (scores.py 224–235):
`round(sum(scores[param] * weights[param] for param in weights))`,
floats modelled as exact rationals. -/
def _calculate_overall_score (scores : Scores) : Int :=
  pyRound ((scores.confidence : ℚ) * the_weights.confidence
    + (scores.technical : ℚ) * the_weights.technical
    + (scores.communication : ℚ) * the_weights.communication
    + (scores.fluency : ℚ) * the_weights.fluency
    + (scores.base_knowledge : ℚ) * the_weights.base_knowledge)

/-- `SessionAnalyzer._parse_feedback_text` (scores.py 281–307): canned
strength for each of confidence/technical/communication with score ≥ 80,
canned improvement for each with score < 60 (the `elif` branch), generic
fallbacks when a list stays empty (`strengths or [...]`), and the raw text
as `detailedFeedback` (`text or "..."`). -/
def _parse_feedback_text (text : String) (scores : Scores) : Feedback :=
  let strengths : List String :=
    (if 80 ≤ scores.confidence then ["Shows strong confidence in responses"] else [])
    ++ (if 80 ≤ scores.technical then ["Demonstrates solid technical knowledge"] else [])
    ++ (if 80 ≤ scores.communication then ["Excellent communication and articulation skills"] else [])
  let improvements : List String :=
    (if 80 ≤ scores.confidence then []
     else if scores.confidence < 60 then ["Work on building confidence and assertiveness"] else [])
    ++ (if 80 ≤ scores.technical then []
     else if scores.technical < 60 then ["Enhance technical skills and knowledge base"] else [])
    ++ (if 80 ≤ scores.communication then []
     else if scores.communication < 60 then ["Improve communication clarity and organization"] else [])
  { strengths := if strengths = [] then ["Shows potential in interview responses"] else strengths
    improvements := if improvements = [] then ["Continue practicing interview skills"] else improvements
    detailedFeedback :=
      if text = "" then "Overall performance shows room for growth with continued practice." else text }

/-- `SessionAnalyzer._generate_default_feedback` (scores.py 309–330):
three fixed bands selected by the arithmetic mean of the five scores. -/
def _generate_default_feedback (scores : Scores) : Feedback :=
  let avg_score : ℚ :=
    ((scores.confidence : ℚ) + (scores.technical : ℚ) + (scores.communication : ℚ)
      + (scores.fluency : ℚ) + (scores.base_knowledge : ℚ)) / 5
  if 80 ≤ avg_score then
    { strengths := ["Strong overall performance", "Good technical understanding", "Clear communication"]
      improvements := ["Continue refining skills", "Practice complex scenarios"]
      detailedFeedback := "Excellent interview performance with strong technical and communication skills. Continue building on this foundation." }
  else if 60 ≤ avg_score then
    { strengths := ["Shows potential", "Basic understanding demonstrated", "Willing to engage"]
      improvements := ["Enhance technical knowledge", "Improve communication clarity", "Build confidence"]
      detailedFeedback := "Good foundation with room for improvement. Focus on strengthening technical skills and communication clarity." }
  else
    { strengths := ["Shows willingness to learn", "Participates in discussion"]
      improvements := ["Significant technical skill development needed", "Improve communication skills", "Build confidence"]
      detailedFeedback := "Requires focused preparation and skill development. Recommend additional practice and study before next interview." }

/-- `SessionAnalyzer._generate_comprehensive_feedback` (scores.py 237–279):
on a raised exception fall back to `_generate_default_feedback`; on a
JSON-parsable reply return it; otherwise parse the text heuristically. -/
def _generate_comprehensive_feedback (fo : FeedbackReply) (scores : Scores)
    (responses : List String) (role : String) : Feedback :=
  match fo with
  | .fail => _generate_default_feedback scores
  | .jsonOk fb => fb
  | .raw t => _parse_feedback_text t scores

/-- `SessionAnalyzer._generate_default_scores` (scores.py 332–349). -/
def _generate_default_scores (reason : String) : Report :=
  { overallScore := 50
    scores := { confidence := 50, technical := 50, communication := 50
                fluency := 50, base_knowledge := 50 }
    feedback := { strengths := ["Participated in interview process"]
                  improvements := ["Unable to analyze due to insufficient data"]
                  detailedFeedback := "Analysis could not be completed: " ++ reason } }

/-- `SessionAnalyzer.analyze_session_scores` (scores.py 22–58).  The outer
`try/except` never fires in the model: every inner LLM failure is already
absorbed by the per-method handlers (`o`, `fo`), and the remaining body is
pure dict arithmetic; its `except` branch would return
`_generate_default_scores`. -/
def analyze_session_scores (o : Oracle) (fo : FeedbackReply)
    (session_data : SessionData) : Report :=
  let user_responses := _extract_user_responses session_data.conversation
  if user_responses = [] then
    _generate_default_scores "No user responses found"
  else
    let role := session_data.user_role.getD "Software Engineer"
    let scores : Scores :=
      { confidence := _analyze_confidence user_responses o.confidence
        technical := _analyze_technical_knowledge user_responses role o.technical
        communication := _analyze_communication user_responses o.communication
        fluency := _analyze_fluency user_responses o.fluency
        base_knowledge := _analyze_base_knowledge user_responses role o.base_knowledge }
    { overallScore := _calculate_overall_score scores
      scores := scores
      feedback := _generate_comprehensive_feedback fo scores user_responses role }

/-- The `SessionAnalyzer` object: `__init__` (scores.py 14–20) only stores
the API key on the shared client; it validates nothing and cannot fail. -/
structure SessionAnalyzer where
  groq_api_key : String
deriving Repr, DecidableEq

/-- `SessionAnalyzer.__init__`: unconditionally constructs the object. -/
def SessionAnalyzer.init (groq_api_key : String) : SessionAnalyzer :=
  { groq_api_key := groq_api_key }

/-- The `response_entry` dict built by `add_user_response_to_transcript`
(mongo.py 258–269): the response text is stored under the `content` key;
no `transcript` key is set (`speaker`, `audio_file` and `metadata` — which
nests the question number — are unmodelled unread keys; the question
number argument only feeds `metadata`). -/
def response_entry (user_transcript : String) (question_number : Nat) : Message :=
  { type := some "user_response"
    content := some user_transcript
    transcript := none
    timestamp := some "now"
    question_number := none }

/-- The reformatting of one conversation message inside the analyze
endpoint (main3.py 850–865): a `user_response` message is rebuilt with
`content = msg.get("content") or msg.get("transcript", "")`, kept only
when that content is non-empty, and the rebuilt dict has no `transcript`
key; any other message is kept as-is. -/
def format_message (msg : Message) : Option Message :=
  if msg.type = some "user_response" then
    let content := py_or_str msg.content (msg.transcript.getD "")
    if content ≠ "" then
      some { type := some "user_response"
             content := some content
             transcript := none
             timestamp := msg.timestamp
             question_number := msg.question_number }
    else
      none
  else
    some msg

/-- The endpoint's `formatted_conversation` loop (main3.py 849–867);
every element of the input list is a dict in the model, so the
`isinstance(msg, dict)` guard always holds. -/
def format_conversation (conversation : List Message) : List Message :=
  conversation.filterMap format_message

/-- One entry of an in-memory session's `previous_answers` list
(main3.py 832–837 reads `answer` and `question_number`). -/
structure MemAnswer where
  answer : Option String
  question_number : Option Nat
deriving Repr, DecidableEq

/-- An in-memory session from the global `sessions` dict, restricted to
the keys the analyze endpoint reads (main3.py 820–837). -/
structure MemSession where
  user_role : Option String
  previous_answers : List MemAnswer
deriving Repr, DecidableEq

/-- main3.py 823–837: conversion of an in-memory session to the
`session_data` shape; each previous answer becomes a `user_response`
message whose text sits under the `content` key. -/
def memory_to_session (ms : MemSession) : SessionData :=
  { conversation := ms.previous_answers.map fun answer =>
      { type := some "user_response"
        content := some (answer.answer.getD "")
        transcript := none
        timestamp := none
        question_number := some (answer.question_number.getD 1) }
    user_role := ms.user_role }

/-- Result of the analyze endpoint: a 200 response body or an
`HTTPException` status code. -/
inductive EndpointResult where
  | response (r : Report)
  | httpError (code : Nat)
deriving Repr, DecidableEq

/-- The default `SessionScoreResponse` the endpoint returns when the
formatted conversation holds no user responses (main3.py 873–890). -/
def endpoint_default_report : Report :=
  { overallScore := 50
    scores := { confidence := 50, technical := 50, communication := 50
                fluency := 50, base_knowledge := 50 }
    feedback := { strengths := ["Participated in interview process"]
                  improvements := ["No responses available for analysis"]
                  detailedFeedback := "Unable to analyze session - no user responses found." } }

/-- The body of the analyze endpoint after `session_data` has been
resolved (main3.py 844–927): reformat the conversation, collect the
`content` of every `user_response` message, return the endpoint default
when that list is empty, otherwise run `SessionAnalyzer` on the
reformatted session (the MongoDB score write-back of lines 904–920 is
external and its failure is swallowed, so it does not affect the
returned response). -/
def endpoint_process (sd : SessionData) (o : Oracle) (fo : FeedbackReply) : EndpointResult :=
  let formatted_conversation := format_conversation sd.conversation
  let user_responses : List String := formatted_conversation.filterMap fun msg =>
    if msg.type = some "user_response" then some (msg.content.getD "") else none
  if user_responses = [] then
    .response endpoint_default_report
  else
    .response (analyze_session_scores o fo
      { conversation := formatted_conversation, user_role := sd.user_role })

/-- `POST /api/session/{session_id}/analyze` (main3.py 802–933): fetch the
session from MongoDB (`mongo`); when absent, fall back to the in-memory
`sessions` dict (`mem`); when both miss, raise HTTP 404
("Session not found"); otherwise process the resolved session data. -/
def analyze_endpoint (mongo : Option SessionData) (mem : Option MemSession)
    (o : Oracle) (fo : FeedbackReply) : EndpointResult :=
  match mongo with
  | some sd => endpoint_process sd o fo
  | none =>
    match mem with
    | some ms => endpoint_process (memory_to_session ms) o fo
    | none => .httpError 404

/-! ### Helper lemmas -/

/-- `pyRound` returns an integer at distance at most 1/2 from its input:
it rounds to a nearest integer. -/
theorem pyRound_near (q : ℚ) : |(pyRound q : ℚ) - q| ≤ 1/2 := by
  have h1 : (⌊q⌋ : ℚ) ≤ q := Int.floor_le q
  have h2 : q < ⌊q⌋ + 1 := Int.lt_floor_add_one q
  unfold pyRound
  split_ifs with hlt hgt hev
  · rw [abs_le]; constructor <;> linarith
  · rw [abs_le]; push_cast; constructor <;> linarith
  · have heq : q - ⌊q⌋ = 1/2 := le_antisymm (not_lt.mp hgt) (not_lt.mp hlt)
    rw [abs_le]; constructor <;> linarith
  · have heq : q - ⌊q⌋ = 1/2 := le_antisymm (not_lt.mp hgt) (not_lt.mp hlt)
    rw [abs_le]; push_cast; constructor <;> linarith

/-- Each per-dimension scorer stays in `[1, 100]` for every oracle
outcome. -/
theorem clamp_or_default_bounds (oc : Option Int) (d : Int)
    (hd : 1 ≤ d ∧ d ≤ 100) :
    1 ≤ (match oc with | some score => max 1 (min 100 score) | none => d) ∧
      (match oc with | some score => max 1 (min 100 score) | none => d) ≤ 100 := by
  cases oc with
  | none => exact hd
  | some v => constructor <;> simp only [] <;> omega

theorem _analyze_confidence_bounds (responses : List String) (oc : Option Int) :
    1 ≤ _analyze_confidence responses oc ∧ _analyze_confidence responses oc ≤ 100 :=
  clamp_or_default_bounds oc 75 (by norm_num)

theorem _analyze_technical_knowledge_bounds (responses : List String) (role : String)
    (oc : Option Int) :
    1 ≤ _analyze_technical_knowledge responses role oc ∧
      _analyze_technical_knowledge responses role oc ≤ 100 :=
  clamp_or_default_bounds oc 70 (by norm_num)

theorem _analyze_communication_bounds (responses : List String) (oc : Option Int) :
    1 ≤ _analyze_communication responses oc ∧ _analyze_communication responses oc ≤ 100 :=
  clamp_or_default_bounds oc 75 (by norm_num)

theorem _analyze_fluency_bounds (responses : List String) (oc : Option Int) :
    1 ≤ _analyze_fluency responses oc ∧ _analyze_fluency responses oc ≤ 100 :=
  clamp_or_default_bounds oc 80 (by norm_num)

theorem _analyze_base_knowledge_bounds (responses : List String) (role : String)
    (oc : Option Int) :
    1 ≤ _analyze_base_knowledge responses role oc ∧
      _analyze_base_knowledge responses role oc ≤ 100 :=
  clamp_or_default_bounds oc 70 (by norm_num)

/-- Every dimension of every report produced by `analyze_session_scores`
lies in `[1, 100]`. -/
theorem report_scores_bounds (o : Oracle) (fo : FeedbackReply) (sd : SessionData)
    (d : Dimension) :
    1 ≤ (analyze_session_scores o fo sd).scores.get d ∧
      (analyze_session_scores o fo sd).scores.get d ≤ 100 := by
  by_cases h : _extract_user_responses sd.conversation = []
  · cases d <;> simp [analyze_session_scores, h, _generate_default_scores, Scores.get]
  · cases d <;> simp only [analyze_session_scores, h, if_false, Scores.get]
    · exact _analyze_confidence_bounds _ _
    · exact _analyze_technical_knowledge_bounds _ _ _
    · exact _analyze_communication_bounds _ _
    · exact _analyze_fluency_bounds _ _
    · exact _analyze_base_knowledge_bounds _ _ _

/-- A message surviving the endpoint's reformatting loop never passes the
filter of `_extract_user_responses`: reformatted user responses carry no
`transcript` key, and all other surviving messages are not of type
`user_response`. -/
theorem format_message_no_transcript (msg m : Message)
    (h : format_message msg = some m) :
    ¬(m.type = some "user_response" ∧ pyTruthyStr m.transcript = true) := by
  by_cases h1 : msg.type = some "user_response"
  · by_cases h2 : py_or_str msg.content (msg.transcript.getD "") = ""
    · simp [format_message, h1, h2] at h
    · simp [format_message, h1, h2] at h
      rintro ⟨-, hp⟩
      rw [← h] at hp
      simp [pyTruthyStr] at hp
  · simp [format_message, h1] at h
    rintro ⟨ht, -⟩
    rw [← h] at ht
    exact h1 ht

/-- After the endpoint's reformatting, `_extract_user_responses` finds
nothing, whatever the conversation was. -/
theorem extract_format_nil (conversation : List Message) :
    _extract_user_responses (format_conversation conversation) = [] := by
  unfold _extract_user_responses format_conversation
  rw [List.filterMap_eq_nil_iff]
  intro m hm
  rw [List.mem_filterMap] at hm
  obtain ⟨msg, -, hfm⟩ := hm
  rw [if_neg (format_message_no_transcript msg m hfm)]

/-- A conversation in which every message has an absent or empty
`transcript` key extracts to the empty response list. -/
theorem extract_empty_transcripts (conversation : List Message)
    (h : ∀ m ∈ conversation, m.transcript = none ∨ m.transcript = some "") :
    _extract_user_responses conversation = [] := by
  unfold _extract_user_responses
  rw [List.filterMap_eq_nil_iff]
  intro m hm
  have hneg : ¬(m.type = some "user_response" ∧ pyTruthyStr m.transcript = true) := by
    rintro ⟨-, hp⟩
    rcases h m hm with h' | h' <;> rw [h'] at hp <;> simp [pyTruthyStr] at hp
  rw [if_neg hneg]

/-- MongoDB-persisted response entries (text under `content`, no
`transcript` key) extract to the empty response list. -/
theorem extract_response_entries_nil (entries : List (String × Nat)) :
    _extract_user_responses (entries.map fun p => response_entry p.1 p.2) = [] := by
  unfold _extract_user_responses
  rw [List.filterMap_eq_nil_iff]
  intro m hm
  rw [List.mem_map] at hm
  obtain ⟨p, -, rfl⟩ := hm
  rw [if_neg]
  rintro ⟨-, hp⟩
  simp [response_entry, pyTruthyStr] at hp

/-- When extraction is empty, the analyzer returns the default report. -/
theorem analyze_empty_extraction (o : Oracle) (fo : FeedbackReply)
    (sd : SessionData) (h : _extract_user_responses sd.conversation = []) :
    analyze_session_scores o fo sd = _generate_default_scores "No user responses found" := by
  simp [analyze_session_scores, h]

/-! ### Claim theorems -/

/-- C1: the analyze endpoint's reformatting step stores each user
response's text only under `content` (exactly as the MongoDB
`response_entry` does), while `_extract_user_responses` keeps only
messages with a present, non-empty `transcript` key; hence the analyzer's
extracted response list is always empty and `analyze_session_scores`
returns the default report with `overallScore` 50 and all five dimension
scores 50, regardless of the response texts. -/
theorem content_transcript_mismatch_forces_default (conversation : List Message)
    (entries : List (String × Nat)) (o : Oracle) (fo : FeedbackReply)
    (role : Option String) :
    _extract_user_responses (format_conversation conversation) = []
    ∧ _extract_user_responses (entries.map fun p => response_entry p.1 p.2) = []
    ∧ (analyze_session_scores o fo
        { conversation := format_conversation conversation, user_role := role }).overallScore = 50
    ∧ ∀ d : Dimension, (analyze_session_scores o fo
        { conversation := format_conversation conversation, user_role := role }).scores.get d = 50 := by
  have hd := analyze_empty_extraction o fo
    { conversation := format_conversation conversation, user_role := role }
    (extract_format_nil conversation)
  refine ⟨extract_format_nil conversation, extract_response_entries_nil entries, ?_, ?_⟩
  · rw [hd]
    rfl
  · intro d
    rw [hd]
    cases d <;> rfl

/-- C3: for every conversation input and every oracle reply — including
integers outside `[1, 100]` and failed calls — each of the five dimension
scores lies in `[1, 100]`, both straight out of the per-dimension scorer
and in the final report. -/
theorem dimension_scores_always_in_range (responses : List String) (role : String)
    (oc : Option Int) (o : Oracle) (fo : FeedbackReply) (sd : SessionData)
    (d : Dimension) :
    (1 ≤ _analyze_confidence responses oc ∧ _analyze_confidence responses oc ≤ 100)
    ∧ (1 ≤ _analyze_technical_knowledge responses role oc
        ∧ _analyze_technical_knowledge responses role oc ≤ 100)
    ∧ (1 ≤ _analyze_communication responses oc ∧ _analyze_communication responses oc ≤ 100)
    ∧ (1 ≤ _analyze_fluency responses oc ∧ _analyze_fluency responses oc ≤ 100)
    ∧ (1 ≤ _analyze_base_knowledge responses role oc
        ∧ _analyze_base_knowledge responses role oc ≤ 100)
    ∧ (1 ≤ (analyze_session_scores o fo sd).scores.get d
        ∧ (analyze_session_scores o fo sd).scores.get d ≤ 100) :=
  ⟨_analyze_confidence_bounds responses oc,
    _analyze_technical_knowledge_bounds responses role oc,
    _analyze_communication_bounds responses oc,
    _analyze_fluency_bounds responses oc,
    _analyze_base_knowledge_bounds responses role oc,
    report_scores_bounds o fo sd d⟩

/-- C4: the overall score is the weighted sum of the five dimension scores
with the fixed weights 0.15 / 0.30 / 0.25 / 0.15 / 0.15, rounded to a
nearest integer (distance at most 1/2; Python's `round` breaks the
half-way tie to the even side), and it is a deterministic function of the
dimension-score map. -/
theorem overall_score_nearest_weighted_sum (s : Scores) :
    |((_calculate_overall_score s : ℚ))
        - ((s.confidence : ℚ) * 0.15 + (s.technical : ℚ) * 0.30
          + (s.communication : ℚ) * 0.25 + (s.fluency : ℚ) * 0.15
          + (s.base_knowledge : ℚ) * 0.15)| ≤ 1/2
    ∧ ∀ s' : Scores, s' = s → _calculate_overall_score s' = _calculate_overall_score s := by
  constructor
  · have h := pyRound_near ((s.confidence : ℚ) * the_weights.confidence
      + (s.technical : ℚ) * the_weights.technical
      + (s.communication : ℚ) * the_weights.communication
      + (s.fluency : ℚ) * the_weights.fluency
      + (s.base_knowledge : ℚ) * the_weights.base_knowledge)
    simpa [_calculate_overall_score, the_weights] using h
  · intro s' h
    rw [h]

/-- Witness for C4 at the concrete score map (80, 70, 75, 80, 70). -/
theorem overall_score_nearest_weighted_sum_witness :
    |((_calculate_overall_score ⟨80, 70, 75, 80, 70⟩ : ℚ))
        - (((80 : Int) : ℚ) * 0.15 + ((70 : Int) : ℚ) * 0.30
          + ((75 : Int) : ℚ) * 0.25 + ((80 : Int) : ℚ) * 0.15
          + ((70 : Int) : ℚ) * 0.15)| ≤ 1/2
    ∧ _calculate_overall_score ⟨80, 70, 75, 80, 70⟩
        = _calculate_overall_score ⟨80, 70, 75, 80, 70⟩ :=
  ⟨(overall_score_nearest_weighted_sum ⟨80, 70, 75, 80, 70⟩).1,
    (overall_score_nearest_weighted_sum ⟨80, 70, 75, 80, 70⟩).2 ⟨80, 70, 75, 80, 70⟩ rfl⟩

/-- C5: whenever the extracted user-response list of a session's
conversation is empty, the analyzer returns the documented default
report instead of raising: every dimension score equals 50 and the
overall score equals 50 exactly. -/
theorem empty_responses_default_report (o : Oracle) (fo : FeedbackReply)
    (sd : SessionData) (h : _extract_user_responses sd.conversation = []) :
    analyze_session_scores o fo sd = _generate_default_scores "No user responses found"
    ∧ (analyze_session_scores o fo sd).overallScore = 50
    ∧ ∀ d : Dimension, (analyze_session_scores o fo sd).scores.get d = 50 := by
  have hd := analyze_empty_extraction o fo sd h
  refine ⟨hd, ?_, ?_⟩
  · rw [hd]
    rfl
  · intro d
    rw [hd]
    cases d <;> rfl

/-- Witness for C5 on the empty conversation. -/
theorem empty_responses_default_report_witness :
    analyze_session_scores ⟨none, none, none, none, none⟩ .fail ⟨[], none⟩
        = _generate_default_scores "No user responses found"
    ∧ (analyze_session_scores ⟨none, none, none, none, none⟩ .fail ⟨[], none⟩).overallScore = 50
    ∧ ∀ d : Dimension,
        (analyze_session_scores ⟨none, none, none, none, none⟩ .fail ⟨[], none⟩).scores.get d = 50 :=
  empty_responses_default_report ⟨none, none, none, none, none⟩ .fail ⟨[], none⟩ rfl

/-- C6: for every session input with a transcript, the analyzer totally
produces a report whose five dimension scores are well-defined and in
range, whatever the oracle does; and in the worst case in which every
response's transcript is empty (with every oracle call failing or not),
the scores are the documented midpoint defaults of 50. -/
theorem report_always_produced_worst_case_midpoint (o : Oracle)
    (fo : FeedbackReply) (sd : SessionData) :
    (∀ d : Dimension, 1 ≤ (analyze_session_scores o fo sd).scores.get d
        ∧ (analyze_session_scores o fo sd).scores.get d ≤ 100)
    ∧ ((∀ m ∈ sd.conversation, m.transcript = none ∨ m.transcript = some "") →
        analyze_session_scores o fo sd = _generate_default_scores "No user responses found"
        ∧ ∀ d : Dimension, (analyze_session_scores o fo sd).scores.get d = 50) := by
  constructor
  · intro d
    exact report_scores_bounds o fo sd d
  · intro h
    have hd := analyze_empty_extraction o fo sd (extract_empty_transcripts _ h)
    refine ⟨hd, ?_⟩
    intro d
    rw [hd]
    cases d <;> rfl

/-- Witness for C6: a session whose only turns are a user response with an
empty transcript and one with no transcript key, with every oracle call
failing. -/
theorem report_always_produced_worst_case_midpoint_witness :
    (∀ d : Dimension,
        1 ≤ (analyze_session_scores ⟨none, none, none, none, none⟩ .fail
              ⟨[⟨some "user_response", none, some "", none, none⟩,
                ⟨some "user_response", some "hello", none, none, none⟩], none⟩).scores.get d
        ∧ (analyze_session_scores ⟨none, none, none, none, none⟩ .fail
              ⟨[⟨some "user_response", none, some "", none, none⟩,
                ⟨some "user_response", some "hello", none, none, none⟩], none⟩).scores.get d ≤ 100)
    ∧ (analyze_session_scores ⟨none, none, none, none, none⟩ .fail
          ⟨[⟨some "user_response", none, some "", none, none⟩,
            ⟨some "user_response", some "hello", none, none, none⟩], none⟩
        = _generate_default_scores "No user responses found"
        ∧ ∀ d : Dimension,
            (analyze_session_scores ⟨none, none, none, none, none⟩ .fail
              ⟨[⟨some "user_response", none, some "", none, none⟩,
                ⟨some "user_response", some "hello", none, none, none⟩], none⟩).scores.get d = 50) :=
  ⟨(report_always_produced_worst_case_midpoint ⟨none, none, none, none, none⟩ .fail
      ⟨[⟨some "user_response", none, some "", none, none⟩,
        ⟨some "user_response", some "hello", none, none, none⟩], none⟩).1,
    (report_always_produced_worst_case_midpoint ⟨none, none, none, none, none⟩ .fail
      ⟨[⟨some "user_response", none, some "", none, none⟩,
        ⟨some "user_response", some "hello", none, none, none⟩], none⟩).2 (by decide)⟩

/-- C2 counterexample: for `_analyze_confidence` with one response, a
failing oracle call yields the fixed default 75, while a successful
oracle reply parsing to 10 yields 10 itself — not the floor-average of
the fallback/heuristic value and the reply (75 and 10 would blend to 42);
there is no heuristic score and no averaging in the code. -/
theorem oracle_blend_refuted :
    _analyze_confidence ["I used a hashmap."] none = 75
    ∧ _analyze_confidence ["I used a hashmap."] (some 10) = 10
    ∧ (10 : Int) ≠ (75 + 10) / 2 := by
  refine ⟨rfl, ?_, by decide⟩
  decide

/-- C2 amended: when a dimension's oracle call fails, the scorer returns
that dimension's fixed default (confidence 75, technical 70,
communication 75, fluency 80, base knowledge 70); on success it returns
the parsed oracle integer clamped to `[1, 100]` with no blending; and each
dimension of the final report depends only on that dimension's own oracle
outcome, so one dimension's oracle failure cannot affect another
dimension's score. -/
theorem per_dimension_fallback_independent (responses : List String)
    (role : String) (v : Int) (o o' : Oracle) (fo fo' : FeedbackReply)
    (sd : SessionData) (d : Dimension) :
    _analyze_confidence responses none = 75
    ∧ _analyze_technical_knowledge responses role none = 70
    ∧ _analyze_communication responses none = 75
    ∧ _analyze_fluency responses none = 80
    ∧ _analyze_base_knowledge responses role none = 70
    ∧ _analyze_confidence responses (some v) = max 1 (min 100 v)
    ∧ (o.get d = o'.get d →
        (analyze_session_scores o fo sd).scores.get d
          = (analyze_session_scores o' fo' sd).scores.get d) := by
  refine ⟨rfl, rfl, rfl, rfl, rfl, rfl, ?_⟩
  intro hod
  by_cases h : _extract_user_responses sd.conversation = []
  · rw [analyze_empty_extraction o fo sd h, analyze_empty_extraction o' fo' sd h]
  · cases d <;>
      simp only [Oracle.get] at hod <;>
      simp [analyze_session_scores, h, Scores.get, hod]

/-- Witness for C2 (amended) at a concrete instantiation with equal
confidence oracles. -/
theorem per_dimension_fallback_independent_witness :
    _analyze_confidence ["a"] none = 75
    ∧ _analyze_technical_knowledge ["a"] "Software Engineer" none = 70
    ∧ _analyze_communication ["a"] none = 75
    ∧ _analyze_fluency ["a"] none = 80
    ∧ _analyze_base_knowledge ["a"] "Software Engineer" none = 70
    ∧ _analyze_confidence ["a"] (some 150) = max 1 (min 100 150)
    ∧ (Oracle.get ⟨some 90, none, none, none, none⟩ .confidence
          = Oracle.get ⟨some 90, some 3, none, none, none⟩ .confidence →
        (analyze_session_scores ⟨some 90, none, none, none, none⟩ .fail
            ⟨[⟨some "user_response", none, some "hi", none, none⟩], none⟩).scores.get .confidence
          = (analyze_session_scores ⟨some 90, some 3, none, none, none⟩ .fail
            ⟨[⟨some "user_response", none, some "hi", none, none⟩], none⟩).scores.get .confidence) :=
  per_dimension_fallback_independent ["a"] "Software Engineer" 150
    ⟨some 90, none, none, none, none⟩ ⟨some 90, some 3, none, none, none⟩ .fail .fail
    ⟨[⟨some "user_response", none, some "hi", none, none⟩], none⟩ .confidence

/-- C7: the fallback feedback summary is selected from three fixed bands
by the arithmetic mean of the five dimension scores (not the weighted
overall): mean ≥ 80 gives the excellent-band text, 60 ≤ mean < 80 the
good-band text, mean < 60 the needs-improvement-band text; on the all-50
default map the summary is the needs-improvement text. -/
theorem default_feedback_band_by_mean (s : Scores) :
    ((80 : ℚ) ≤ ((s.confidence : ℚ) + (s.technical : ℚ) + (s.communication : ℚ)
          + (s.fluency : ℚ) + (s.base_knowledge : ℚ)) / 5 →
      (_generate_default_feedback s).detailedFeedback
        = "Excellent interview performance with strong technical and communication skills. Continue building on this foundation.")
    ∧ (((s.confidence : ℚ) + (s.technical : ℚ) + (s.communication : ℚ)
          + (s.fluency : ℚ) + (s.base_knowledge : ℚ)) / 5 < 80 →
       (60 : ℚ) ≤ ((s.confidence : ℚ) + (s.technical : ℚ) + (s.communication : ℚ)
          + (s.fluency : ℚ) + (s.base_knowledge : ℚ)) / 5 →
      (_generate_default_feedback s).detailedFeedback
        = "Good foundation with room for improvement. Focus on strengthening technical skills and communication clarity.")
    ∧ (((s.confidence : ℚ) + (s.technical : ℚ) + (s.communication : ℚ)
          + (s.fluency : ℚ) + (s.base_knowledge : ℚ)) / 5 < 60 →
      (_generate_default_feedback s).detailedFeedback
        = "Requires focused preparation and skill development. Recommend additional practice and study before next interview.")
    ∧ (_generate_default_feedback ⟨50, 50, 50, 50, 50⟩).detailedFeedback
        = "Requires focused preparation and skill development. Recommend additional practice and study before next interview." := by
  refine ⟨?_, ?_, ?_, ?_⟩
  · intro h
    simp only [_generate_default_feedback]
    rw [if_pos h]
  · intro hlt h60
    simp only [_generate_default_feedback]
    rw [if_neg (not_le.mpr hlt), if_pos h60]
  · intro h
    have h80 : ((s.confidence : ℚ) + (s.technical : ℚ) + (s.communication : ℚ)
        + (s.fluency : ℚ) + (s.base_knowledge : ℚ)) / 5 < 80 :=
      lt_of_lt_of_le h (by norm_num)
    simp only [_generate_default_feedback]
    rw [if_neg (not_le.mpr h80), if_neg (not_le.mpr h)]
  · norm_num [_generate_default_feedback]

/-- Witness for C7 on the all-50 default map, whose mean 50 lands in the
needs-improvement band. -/
theorem default_feedback_band_by_mean_witness :
    (((50 : Int) : ℚ) + ((50 : Int) : ℚ) + ((50 : Int) : ℚ)
        + ((50 : Int) : ℚ) + ((50 : Int) : ℚ)) / 5 < 60
    ∧ (_generate_default_feedback ⟨50, 50, 50, 50, 50⟩).detailedFeedback
        = "Requires focused preparation and skill development. Recommend additional practice and study before next interview." :=
  ⟨by norm_num, (default_feedback_band_by_mean ⟨50, 50, 50, 50, 50⟩).2.2.1 (by norm_num)⟩

/-- A list guarded by a single-fallback wrapper is never empty. -/
theorem ite_fallback_ne_nil {l : List String} {x : String} :
    (if l = [] then [x] else l) ≠ [] := by
  split_ifs with h
  · simp
  · exact h

/-- Membership in a fallback-wrapped list, for an element distinct from
the fallback string. -/
theorem mem_fallback_iff {l : List String} {x a : String} (hxa : a ≠ x) :
    (a ∈ (if l = [] then [x] else l)) ↔ a ∈ l := by
  split_ifs with h
  · simp [hxa, h]
  · rfl

/-- Membership in a conditional singleton. -/
theorem mem_ite_singleton {α : Type} (a b : α) (c : Prop) [Decidable c] :
    (a ∈ (if c then [b] else ([] : List α))) ↔ c ∧ a = b := by
  split_ifs with h <;> simp [h]

/-- Membership in an `if/elif` conditional singleton (the improvement
branches of `_parse_feedback_text`). -/
theorem mem_ite_elif {α : Type} (a b : α) (c1 c2 : Prop)
    [Decidable c1] [Decidable c2] :
    (a ∈ (if c1 then ([] : List α) else if c2 then [b] else [])) ↔ ¬c1 ∧ c2 ∧ a = b := by
  split_ifs with h1 h2 <;> simp [*]

/-- C8 counterexample: on the score map with every dimension equal to 75,
`_parse_feedback_text` appends no canned strength at all (its real
threshold is 80, not 75, and only confidence/technical/communication are
examined): the strengths list is exactly the generic fallback. -/
theorem strength_threshold_refuted :
    (_parse_feedback_text "raw feedback" ⟨75, 75, 75, 75, 75⟩).strengths
        = ["Shows potential in interview responses"]
    ∧ "Shows strong confidence in responses"
        ∉ (_parse_feedback_text "raw feedback" ⟨75, 75, 75, 75, 75⟩).strengths := by
  constructor
  · rfl
  · decide

/-- C8 amended: in `_parse_feedback_text`, only confidence, technical and
communication are examined; a canned strength is appended exactly when the
dimension's score is ≥ 80 and a canned improvement exactly when it is
< 60; fluency and base knowledge never contribute; the generic fallback
strings keep both lists non-empty when nothing qualifies. -/
theorem parse_feedback_rules (text : String) (s : Scores) :
    (_parse_feedback_text text s).strengths ≠ []
    ∧ (_parse_feedback_text text s).improvements ≠ []
    ∧ (("Shows strong confidence in responses"
          ∈ (_parse_feedback_text text s).strengths) ↔ 80 ≤ s.confidence)
    ∧ (("Demonstrates solid technical knowledge"
          ∈ (_parse_feedback_text text s).strengths) ↔ 80 ≤ s.technical)
    ∧ (("Excellent communication and articulation skills"
          ∈ (_parse_feedback_text text s).strengths) ↔ 80 ≤ s.communication)
    ∧ (("Work on building confidence and assertiveness"
          ∈ (_parse_feedback_text text s).improvements) ↔ s.confidence < 60)
    ∧ (("Enhance technical skills and knowledge base"
          ∈ (_parse_feedback_text text s).improvements) ↔ s.technical < 60)
    ∧ (("Improve communication clarity and organization"
          ∈ (_parse_feedback_text text s).improvements) ↔ s.communication < 60) := by
  refine ⟨?_, ?_, ?_, ?_, ?_, ?_, ?_, ?_⟩
  · simp only [_parse_feedback_text]
    exact ite_fallback_ne_nil
  · simp only [_parse_feedback_text]
    exact ite_fallback_ne_nil
  · simp only [_parse_feedback_text]
    rw [mem_fallback_iff (by decide)]
    simp [List.mem_append, mem_ite_singleton]
  · simp only [_parse_feedback_text]
    rw [mem_fallback_iff (by decide)]
    simp [List.mem_append, mem_ite_singleton]
  · simp only [_parse_feedback_text]
    rw [mem_fallback_iff (by decide)]
    simp [List.mem_append, mem_ite_singleton]
  · simp only [_parse_feedback_text]
    rw [mem_fallback_iff (by decide)]
    simp [List.mem_append, mem_ite_elif]
    omega
  · simp only [_parse_feedback_text]
    rw [mem_fallback_iff (by decide)]
    simp [List.mem_append, mem_ite_elif]
    omega
  · simp only [_parse_feedback_text]
    rw [mem_fallback_iff (by decide)]
    simp [List.mem_append, mem_ite_elif]
    omega

/-- Once session data is resolved, the endpoint body always returns a 200
response (both its branches build a `SessionScoreResponse`). -/
theorem endpoint_process_response (sd : SessionData) (o : Oracle) (fo : FeedbackReply) :
    ∃ r : Report, endpoint_process sd o fo = .response r := by
  by_cases h : ((format_conversation sd.conversation).filterMap fun msg =>
      if msg.type = some "user_response" then some (msg.content.getD "") else none) = []
  · exact ⟨endpoint_default_report, by simp [endpoint_process, h]⟩
  · exact ⟨analyze_session_scores o fo
      { conversation := format_conversation sd.conversation, user_role := sd.user_role },
      by simp [endpoint_process, h]⟩

/-- C9 counterexample: with no MongoDB record but an in-memory session
for the identifier, the endpoint does not raise 404 — it answers with the
default report built from the (empty) in-memory conversation — so the
404 condition is not "the transcript store has no record". -/
theorem endpoint_memory_fallback_refutes_404 :
    analyze_endpoint none (some ⟨some "Software Engineer", []⟩)
        ⟨none, none, none, none, none⟩ .fail
      = .response endpoint_default_report
    ∧ analyze_endpoint none (some ⟨some "Software Engineer", []⟩)
        ⟨none, none, none, none, none⟩ .fail
      ≠ .httpError 404 := by
  constructor
  · rfl
  · decide

/-- C9 amended: the analyze endpoint raises HTTP 404 exactly when both
the MongoDB store and the in-memory `sessions` dict lack a record for the
session identifier, and 404 is the only error status the endpoint's
modelled control flow can produce. -/
theorem endpoint_not_found_iff (mongo : Option SessionData)
    (mem : Option MemSession) (o : Oracle) (fo : FeedbackReply) :
    (analyze_endpoint mongo mem o fo = .httpError 404 ↔ mongo = none ∧ mem = none)
    ∧ ∀ c : Nat, analyze_endpoint mongo mem o fo = .httpError c → c = 404 := by
  cases mongo with
  | some sd =>
    obtain ⟨r, hr⟩ := endpoint_process_response sd o fo
    constructor
    · simp [analyze_endpoint, hr]
    · intro c hc
      simp [analyze_endpoint, hr] at hc
  | none =>
    cases mem with
    | some ms =>
      obtain ⟨r, hr⟩ := endpoint_process_response (memory_to_session ms) o fo
      constructor
      · simp [analyze_endpoint, hr]
      · intro c hc
        simp [analyze_endpoint, hr] at hc
    | none =>
      constructor
      · simp [analyze_endpoint]
      · intro c hc
        simp only [analyze_endpoint, EndpointResult.httpError.injEq] at hc
        omega

/-- Witness for C9 (amended) with both stores missing the session. -/
theorem endpoint_not_found_iff_witness :
    (analyze_endpoint none none ⟨none, none, none, none, none⟩ .fail = .httpError 404
      ↔ (none : Option SessionData) = none ∧ (none : Option MemSession) = none)
    ∧ (404 : Nat) = 404 :=
  ⟨(endpoint_not_found_iff none none ⟨none, none, none, none, none⟩ .fail).1,
    (endpoint_not_found_iff none none ⟨none, none, none, none, none⟩ .fail).2 404 rfl⟩

/-- C10 counterexample: `SessionAnalyzer.__init__` performs no weight-sum
validation and has no failure path — construction succeeds unconditionally
for an arbitrary input, so nothing "fails fast" at construction time. -/
theorem init_performs_no_check :
    SessionAnalyzer.init "no weights are inspected here"
      = { groq_api_key := "no weights are inspected here" } := rfl

/-- C10 amended: the hardcoded weights of `_calculate_overall_score` sum
to exactly 1 as exact decimals, but no construction-time check of this
invariant exists: the weights are per-call literals, not configuration,
and `SessionAnalyzer.__init__` unconditionally succeeds for every input. -/
theorem weights_sum_one_no_construction_check :
    the_weights.confidence + the_weights.technical + the_weights.communication
        + the_weights.fluency + the_weights.base_knowledge = 1
    ∧ ∀ k : String, SessionAnalyzer.init k = { groq_api_key := k } := by
  constructor
  · norm_num [the_weights]
  · intro k
    rfl
